import Mathlib

/-!
Verification of the inline link tool
(`src/components/inline-tools/inline-tool-link.ts`).

The pure parts of the tool (URL validation and normalization, the page-list
filter, the highlight computation of `checkState`) are embedded as executable
Lean functions over `List Char` / `String`.  The stateful controller
(`openActions`, `closeActions`, `toggleActions`, `clear`, `checkState`,
`enterPressed`, `renderActions`) is embedded as explicit state passing over a
`ToolState` record, together with an effect log recording the externally
visible calls (unlink / createLink commands, notifier, event suppression,
toolbar closing).

JavaScript whitespace (`\s`, `String.prototype.trim`) is modelled by
`Char.isWhitespace` (ASCII whitespace); all inputs of interest are ASCII.
-/

/-- Word character of the JavaScript regex class `\w`: ASCII letters, digits
and the underscore. -/
def isWordChar (c : Char) : Bool :=
  c.isAlphanum || c == '_'

/-- Leading/trailing whitespace removal, the model of JavaScript
`String.prototype.trim` on the character list of a string. -/
def trimChars (l : List Char) : List Char :=
  (l.dropWhile Char.isWhitespace).rdropWhile Char.isWhitespace

/-- Test of the regex `/^(\w+):\/\//` from `addProtocol`: a nonempty run of
word characters followed by the three characters `://`. -/
def startsWithScheme (l : List Char) : Bool :=
  !(l.takeWhile isWordChar).isEmpty &&
    (match l.dropWhile isWordChar with
     | ':' :: '/' :: '/' :: _ => true
     | _ => false)

/-- Test of the regex `/^\/[^\/\s]/` (`isInternal` in `addProtocol`): a single
slash followed by a character that is neither a slash nor whitespace. -/
def isInternalPath (l : List Char) : Bool :=
  match l with
  | '/' :: c :: _ => !(c == '/') && !c.isWhitespace
  | _ => false

/-- Test of `link.substring(0, 1) === '#'` (`isAnchor` in `addProtocol`). -/
def isAnchorStart (l : List Char) : Bool :=
  match l with
  | '#' :: _ => true
  | _ => false

/-- Test of the regex `/^\/\/[^\/\s]/` (`isProtocolRelative` in
`addProtocol`): two slashes followed by a character that is neither a slash
nor whitespace. -/
def isProtocolRelative (l : List Char) : Bool :=
  match l with
  | '/' :: '/' :: c :: _ => !(c == '/') && !c.isWhitespace
  | _ => false

/-- The character list of the added prefix string `http://`. -/
def httpChars : List Char :=
  ['h', 't', 't', 'p', ':', '/', '/']

/-- Character-list level body of `addProtocol`. -/
def addProtocolChars (l : List Char) : List Char :=
  if startsWithScheme l then l
  else if !isInternalPath l && !isAnchorStart l && !isProtocolRelative l then
    httpChars ++ l
  else l

/-- Model of `addProtocol` from the source: keep the string when it already
carries a scheme, an internal path, an anchor or a protocol-relative prefix,
otherwise prepend `http://`. -/
def addProtocol (link : String) : String :=
  String.mk (addProtocolChars link.toList)

/-- Model of `prepareLink` from the source: trim the raw input, then
`addProtocol`. -/
def prepareLink (link : String) : String :=
  addProtocol (String.mk (trimChars link.toList))

/-- Model of `validateURL` from the source: `!/\s/.test(str)`, that is, the
string holds no whitespace character. -/
def validateURL (str : String) : Bool :=
  !(str.toList.any Char.isWhitespace)

/-- Substring test: the first list occurs at the head of the second. -/
def leadMatch : List Char → List Char → Bool
  | [], _ => true
  | _ :: _, [] => false
  | a :: as, b :: bs => a == b && leadMatch as bs

/-- Substring test, the model of JavaScript `String.prototype.includes`:
the first list occurs contiguously somewhere in the second. -/
def occursIn (sub : List Char) : List Char → Bool
  | [] => leadMatch sub []
  | c :: cs => leadMatch sub (c :: cs) || occursIn sub cs

/-- A known page entry `{ name, url }` from the externally supplied list. -/
structure PageEntry where
  name : String
  url : String
deriving DecidableEq

/-- Lower-casing of a character list, the model of JavaScript
`toLocaleLowerCase` (ASCII). -/
def lowerChars (l : List Char) : List Char :=
  l.map Char.toLower

/-- Model of the search-input `keyup` handler in `renderActions`: when the
trimmed query is nonempty, keep the entries whose lower-cased name holds the
trimmed query as a substring (the query itself is NOT lower-cased by the
source); otherwise render the full list. -/
def filterPages (pageLinks : List PageEntry) (searchValue : String) : List PageEntry :=
  if !(trimChars searchValue.toList).isEmpty then
    pageLinks.filter fun each =>
      occursIn (trimChars searchValue.toList) (lowerChars each.name.toList)
  else pageLinks

/-- Model of the `href` fill of the URL input in `checkState`:
`this.nodes.input.value = hrefAttr !== 'null' ? hrefAttr : ''`.  The
`getAttribute` result is an `Option String` (`none` for an absent attribute);
assigning the JavaScript `null` to `input.value` yields the empty string
(the DOM `LegacyNullToEmptyString` coercion). -/
def checkStateInputValue (hrefAttr : Option String) : String :=
  if hrefAttr != some "null" then
    match hrefAttr with
    | some h => h
    | none => ""
  else ""

/-- Model of the `selected-item` marking loop in `checkState`: when
`hrefAttr !== 'null'`, entry `i` is marked iff `page.url === hrefAttr`
(strict equality, false against `null`); otherwise every mark is removed.
The flags are over the freshly rendered full page list. -/
def checkStateHighlight (pageLinks : List PageEntry) (hrefAttr : Option String) :
    List Bool :=
  if hrefAttr != some "null" then
    pageLinks.map fun page => hrefAttr == some page.url
  else
    pageLinks.map fun _ => false

/-- An abstract selection snapshot (the opaque range captured by
`SelectionUtils`). -/
structure Snap where
  id : Nat
deriving DecidableEq

/-- Externally visible calls made by the controller, in program order. -/
inductive Effect where
  | restoreSel
  | removeFakeBg
  | unlink
  | expandToTag
  | insertLink (href : String)
  | preventDefault
  | stopPropagation
  | stopImmediatePropagation
  | collapseToEnd
  | notifierShow (message : String) (style : String)
  | logWarn
  | closeActionsCall (clearSaved : Bool)
  | inlineToolbarClose
deriving DecidableEq

/-- State of the tool instance: the DOM fields the controller reads and
writes (`input.value`, `searchInput.value`, the `--showed` classes, the
`selected-item` classes of the rendered list items, the active/unlink button
classes), the `inputOpened` flag, the stored page list, and the state of the
SelectionUtils guard (saved snapshot, fake-background flag, live
selection). -/
structure ToolState where
  inputValue : String
  searchValue : String
  inputOpened : Bool
  divShowed : Bool
  inputShowed : Bool
  pageLinks : List PageEntry
  renderedList : List PageEntry
  highlightFlags : List Bool
  buttonUnlink : Bool
  buttonActive : Bool
  savedSelection : Option Snap
  fakeBackground : Bool
  liveSelection : Option Snap
deriving DecidableEq

namespace LinkTool

/-- Modelled from the spec: `SelectionUtils.save` (the class is outside
`src/`) — captures the live selection into the snapshot, overwriting any
prior one; no-op capture when there is no live selection (spec 4.2). -/
def saveGuard (st : ToolState) : ToolState :=
  match st.liveSelection with
  | some s => { st with savedSelection := some s }
  | none => st

/-- Modelled from the spec: `SelectionUtils.restore` — re-applies the stored
snapshot as the live selection; no-op when no snapshot is stored
(spec 4.2). -/
def restoreGuard (st : ToolState) : ToolState :=
  match st.savedSelection with
  | some s => { st with liveSelection := some s }
  | none => st

/-- Modelled from the spec: `SelectionUtils.removeFakeBackground` — clears
the fake-highlight flag; callable when none is active (spec 4.2). -/
def removeFakeBgGuard (st : ToolState) : ToolState :=
  { st with fakeBackground := false }

/-- Modelled from the spec: `SelectionUtils.clearSaved` — discards the stored
snapshot (spec 4.2). -/
def clearSavedGuard (st : ToolState) : ToolState :=
  { st with savedSelection := none }

/-- Model of `renderList(list)`: the `ul` children are rebuilt from `list`;
fresh `li` elements carry no `selected-item` class. -/
def renderList (list : List PageEntry) (st : ToolState) : ToolState :=
  { st with renderedList := list, highlightFlags := list.map fun _ => false }

/-- Model of `openActions(needFocus)`: add the two `--showed` classes and set
`inputOpened` (the focus call has no modelled state). -/
def openActions (needFocus : Bool) (st : ToolState) : ToolState :=
  { st with divShowed := true, inputShowed := true, inputOpened := true }

/-- Model of `closeActions(clearSavedSelection)`: when a fake background is
active, a second fresh guard saves the current live selection, the own guard
restores its snapshot and drops the fake background, and the second guard
restores the newer selection on top; then the `--showed` classes are removed,
the input is emptied, the snapshot is cleared when `clearSavedSelection`
holds, and `inputOpened` is reset. -/
def closeActions (st : ToolState) (clearSavedSelection : Bool) : ToolState :=
  let st1 :=
    if st.fakeBackground then
      let tempSaved := st.liveSelection
      let sa := restoreGuard st
      let sb := removeFakeBgGuard sa
      match tempSaved with
      | some s => { sb with liveSelection := some s }
      | none => sb
    else st
  let st2 := { st1 with inputShowed := false, divShowed := false, inputValue := "" }
  let st3 := if clearSavedSelection then clearSavedGuard st2 else st2
  { st3 with inputOpened := false }

/-- Model of `toggleActions`: open with focus when closed, close without
clearing the saved selection when open. -/
def toggleActions (st : ToolState) : ToolState :=
  if !st.inputOpened then openActions true st else closeActions st false

/-- Model of `clear` (invoked by the host when the inline toolbar closes):
`closeActions()` with the default `clearSavedSelection = true`. -/
def clear (st : ToolState) : ToolState :=
  closeActions st true

/-- Model of `renderActions`: re-read the page list from the external store
(`window.localStorage.existingLinks`, parsed, or `[]`), rebuild the panel
nodes (fresh inputs are empty, the `--showed` classes are absent) and render
the full list.  The external read is the `storeList` parameter. -/
def renderActions (storeList : List PageEntry) (st : ToolState) : ToolState :=
  renderList storeList
    { st with pageLinks := storeList, searchValue := "", inputValue := "",
              divShowed := false, inputShowed := false }

/-- Model of `checkState`: the anchor argument is the result of
`findParentTag('A')` — `none` when the selection has no `<a>` ancestor,
`some hrefAttr` with the `getAttribute('href')` result otherwise.  The search
query is cleared and the full list re-rendered; with an anchor the button is
set active, the panel opened, the input filled, the matches marked and the
selection saved; without one the button styling and all marks are cleared. -/
def checkState (st : ToolState) (anchor : Option (Option String)) :
    ToolState × Bool :=
  let st0 := renderList st.pageLinks { st with searchValue := "" }
  match anchor with
  | some hrefAttr =>
    let st1 := { st0 with buttonUnlink := true, buttonActive := true }
    let st2 := openActions false st1
    let st3 := { st2 with inputValue := checkStateInputValue hrefAttr,
                          highlightFlags := checkStateHighlight st2.pageLinks hrefAttr }
    (saveGuard st3, true)
  | none =>
    ({ st0 with buttonUnlink := false, buttonActive := false,
                highlightFlags := st0.highlightFlags.map fun _ => false }, false)

/-- Model of `enterPressed(event, isExisting, data)`.  The effective value is
the clicked entry URL when `isExisting`, else the URL input content.  The
empty-trim branch restores, unlinks, prevents default and closes — without a
return, so control always continues into the validation check and, when that
passes, into the insertion path.  The `anchor` parameter is the
`findParentTag('A')` test made by `insertLink` at insertion time. -/
def enterPressed (st : ToolState) (isExisting : Bool) (data : String)
    (anchor : Bool) : ToolState × List Effect :=
  let value := if isExisting then data else st.inputValue
  let (st1, fx1) :=
    if (trimChars value.toList).isEmpty then
      (closeActions (restoreGuard st) true,
        [Effect.restoreSel, Effect.unlink, Effect.preventDefault,
         Effect.closeActionsCall true])
    else (st, [])
  if !validateURL value then
    (st1, fx1 ++ [Effect.notifierShow "Pasted link is not valid." "error",
                  Effect.logWarn])
  else
    let linkValue := prepareLink value
    let st2 := removeFakeBgGuard (restoreGuard st1)
    (st2, fx1 ++ [Effect.restoreSel, Effect.removeFakeBg] ++
      (if anchor then [Effect.expandToTag] else []) ++
      [Effect.insertLink linkValue, Effect.preventDefault, Effect.stopPropagation,
       Effect.stopImmediatePropagation, Effect.collapseToEnd,
       Effect.inlineToolbarClose])

end LinkTool

/-- A nonempty sample state with the panel open, a saved snapshot and an
active fake background. -/
def sampleState : ToolState :=
  { inputValue := "", searchValue := "", inputOpened := true,
    divShowed := true, inputShowed := true,
    pageLinks := [], renderedList := [], highlightFlags := [],
    buttonUnlink := false, buttonActive := false,
    savedSelection := some ⟨3⟩, fakeBackground := true, liveSelection := some ⟨7⟩ }

/-- The all-closed initial state of a freshly constructed tool. -/
def initState : ToolState :=
  { inputValue := "", searchValue := "", inputOpened := false,
    divShowed := false, inputShowed := false,
    pageLinks := [], renderedList := [], highlightFlags := [],
    buttonUnlink := false, buttonActive := false,
    savedSelection := none, fakeBackground := false, liveSelection := none }

/-- Protocol-relative test exactly as the claim words rule four: two slashes
followed by a non-slash character (whitespace not excluded).  Spec-side
definition, for comparison with the source predicate `isProtocolRelative`. -/
def claimProtocolRelative (l : List Char) : Bool :=
  match l with
  | '/' :: '/' :: c :: _ => !(c == '/')
  | _ => false

/-- Normalization exactly as the claim words it: trim, then the five rules in
precedence order, rule four being `claimProtocolRelative`.  Spec-side
definition, for comparison with `prepareLink`. -/
def claimNormalize (s : String) : String :=
  let t := trimChars s.toList
  if startsWithScheme t then String.mk t
  else if isInternalPath t then String.mk t
  else if isAnchorStart t then String.mk t
  else if claimProtocolRelative t then String.mk t
  else String.mk (httpChars ++ t)

/-- Normalization as the claim reads once rule four is corrected to the
source predicate (`//` followed by a non-slash, non-whitespace character).
Spec-side definition, for comparison with `prepareLink`. -/
def specNormalize (s : String) : String :=
  let t := trimChars s.toList
  if startsWithScheme t then String.mk t
  else if isInternalPath t then String.mk t
  else if isAnchorStart t then String.mk t
  else if isProtocolRelative t then String.mk t
  else String.mk (httpChars ++ t)

theorem toList_mk (l : List Char) : (String.mk l).toList = l := rfl

theorem mk_toList (s : String) : String.mk s.toList = s := rfl

@[simp] theorem toList_eq_data (s : String) : s.toList = s.data := rfl

theorem addProtocolChars_eq_rules (t : List Char) :
    addProtocolChars t =
      (if startsWithScheme t then t
       else if isInternalPath t then t
       else if isAnchorStart t then t
       else if isProtocolRelative t then t
       else httpChars ++ t) := by
  unfold addProtocolChars
  cases h1 : startsWithScheme t <;> cases h2 : isInternalPath t <;>
    cases h3 : isAnchorStart t <;> cases h4 : isProtocolRelative t <;>
    simp [h1, h2, h3, h4]

theorem head?_dropWhile_false {α : Type} (p : α → Bool) (l : List α) (c : α)
    (h : (l.dropWhile p).head? = some c) : p c = false := by
  induction l with
  | nil => simp at h
  | cons a as ih =>
    rw [List.dropWhile_cons] at h
    split at h
    · exact ih h
    · rename_i ha
      simp only [List.head?_cons, Option.some.injEq] at h
      subst h
      simpa using ha

theorem dropWhile_eq_self_of_head?_false {α : Type} (p : α → Bool) (l : List α)
    (h : ∀ c, l.head? = some c → p c = false) : l.dropWhile p = l := by
  cases l with
  | nil => rfl
  | cons a as => exact List.dropWhile_cons_of_neg (by simp [h a rfl])

theorem dropWhile_trimChars (l : List Char) :
    (trimChars l).dropWhile Char.isWhitespace = trimChars l := by
  unfold trimChars
  apply dropWhile_eq_self_of_head?_false
  intro c hc
  obtain ⟨t, ht⟩ :=
    List.rdropWhile_prefix Char.isWhitespace (l.dropWhile Char.isWhitespace)
  have hhead : (l.dropWhile Char.isWhitespace).head? = some c := by
    rw [← ht, List.head?_append, hc]
    rfl
  exact head?_dropWhile_false _ _ _ hhead

theorem trimChars_trimChars (l : List Char) :
    trimChars (trimChars l) = trimChars l := by
  have h1 := dropWhile_trimChars l
  show ((trimChars l).dropWhile Char.isWhitespace).rdropWhile Char.isWhitespace
      = trimChars l
  rw [h1]
  show ((l.dropWhile Char.isWhitespace).rdropWhile Char.isWhitespace).rdropWhile
      Char.isWhitespace = _
  rw [List.rdropWhile_idempotent]
  rfl

theorem trimChars_http_append (l : List Char) :
    trimChars (httpChars ++ trimChars l) = httpChars ++ trimChars l := by
  rcases hT : trimChars l with _ | ⟨c, rest⟩
  · show trimChars (httpChars ++ []) = httpChars ++ []
    decide
  · have hne : trimChars l ≠ [] := by rw [hT]; simp
    rw [← hT]
    have h1 : (httpChars ++ trimChars l).dropWhile Char.isWhitespace
        = httpChars ++ trimChars l := by
      simp only [httpChars, List.cons_append]
      exact List.dropWhile_cons_of_neg (by decide)
    have h2 : (httpChars ++ trimChars l).rdropWhile Char.isWhitespace
        = httpChars ++ trimChars l := by
      rw [List.rdropWhile_eq_self_iff]
      intro hl
      rw [List.getLast_append_of_ne_nil hne]
      exact List.rdropWhile_last_not _ _ hne
    show ((httpChars ++ trimChars l).dropWhile Char.isWhitespace).rdropWhile
        Char.isWhitespace = _
    rw [h1, h2]

theorem startsWithScheme_http (t : List Char) :
    startsWithScheme (httpChars ++ t) = true := by
  have e1 : isWordChar 'h' = true := by decide
  have e2 : isWordChar 't' = true := by decide
  have e3 : isWordChar 'p' = true := by decide
  have e4 : isWordChar ':' = false := by decide
  simp only [httpChars, List.cons_append]
  simp [startsWithScheme, List.takeWhile_cons, List.dropWhile_cons, e1, e2, e3, e4]

theorem addProtocolChars_trim_idem (l : List Char) :
    addProtocolChars (trimChars (addProtocolChars (trimChars l)))
      = addProtocolChars (trimChars l) := by
  cases h1 : startsWithScheme (trimChars l) with
  | true =>
    rw [show addProtocolChars (trimChars l) = trimChars l by
      simp [addProtocolChars, h1]]
    rw [trimChars_trimChars]
    simp [addProtocolChars, h1]
  | false =>
    cases h2 : (!isInternalPath (trimChars l) && !isAnchorStart (trimChars l) &&
        !isProtocolRelative (trimChars l)) with
    | true =>
      rw [show addProtocolChars (trimChars l) = httpChars ++ trimChars l by
        simp [addProtocolChars, h1, h2]]
      rw [trimChars_http_append]
      simp [addProtocolChars, startsWithScheme_http]
    | false =>
      rw [show addProtocolChars (trimChars l) = trimChars l by
        simp [addProtocolChars, h1, h2]]
      rw [trimChars_trimChars]
      simp [addProtocolChars, h1, h2]

/-- C1 (counterexample): the submitted value consisting of a single space
fails `validateURL`, and `enterPressed` does surface the notification — but
the panel does not stay open, an unlink is issued and the saved selection is
clobbered, because the whitespace-only value also takes the empty-trim
branch.  So the claim fails for whitespace-only values. -/
theorem enterPressed_whitespace_only_cex :
    validateURL " " = false ∧
    (LinkTool.enterPressed { sampleState with inputValue := " " } false "" false).1.inputOpened
      = false ∧
    Effect.unlink ∈
      (LinkTool.enterPressed { sampleState with inputValue := " " } false "" false).2 ∧
    Effect.notifierShow "Pasted link is not valid." "error" ∈
      (LinkTool.enterPressed { sampleState with inputValue := " " } false "" false).2 ∧
    (LinkTool.enterPressed { sampleState with inputValue := " " } false "" false).1.savedSelection
      ≠ ({ sampleState with inputValue := " " } : ToolState).savedSelection := by
  decide

/-- C1 (amended): for every submitted value whose trim is nonempty and which
fails `validateURL` validation, `enterPressed` surfaces the
"Pasted link is not valid." notification and aborts with no state change —
the state (panel, input, saved selection, fake background, live selection)
is returned exactly as it was, and the only effects are the notification and
a warning log. -/
theorem enterPressed_invalid_nonempty_aborts (st : ToolState) (isExisting : Bool)
    (data : String) (anchor : Bool)
    (hne : trimChars (if isExisting then data else st.inputValue).toList ≠ [])
    (hv : validateURL (if isExisting then data else st.inputValue) = false) :
    LinkTool.enterPressed st isExisting data anchor =
      (st, [Effect.notifierShow "Pasted link is not valid." "error", Effect.logWarn]) := by
  simp only [toList_eq_data] at hne
  unfold LinkTool.enterPressed
  simp [hne, hv]

/-- C1 (witness): the value `"bad url"` has a nonempty trim and fails
validation; submitting it through Enter leaves the state untouched and only
notifies. -/
theorem enterPressed_invalid_nonempty_aborts_witness :
    trimChars ("bad url" : String).toList ≠ [] ∧
    validateURL "bad url" = false ∧
    LinkTool.enterPressed { sampleState with inputValue := "bad url" } false "" false =
      ({ sampleState with inputValue := "bad url" },
       [Effect.notifierShow "Pasted link is not valid." "error", Effect.logWarn]) :=
  ⟨by decide, by decide,
   enterPressed_invalid_nonempty_aborts _ false "" false (by decide) (by decide)⟩

/-- C2 (code bug): on an empty submitted value the empty-trim branch
restores, unlinks, prevents default and closes — but it does not return, the
empty string passes `validateURL`, and the function continues into the
insertion path: a link with href `"http://"` (the result of
`prepareLink ""`) is inserted right after the unlink, contradicting the
specified behaviour that nothing further happens. -/
theorem enterPressed_empty_inserts_http :
    (LinkTool.enterPressed { sampleState with inputValue := "" } false "" false).2 =
      [Effect.restoreSel, Effect.unlink, Effect.preventDefault,
       Effect.closeActionsCall true,
       Effect.restoreSel, Effect.removeFakeBg, Effect.insertLink "http://",
       Effect.preventDefault, Effect.stopPropagation,
       Effect.stopImmediatePropagation, Effect.collapseToEnd,
       Effect.inlineToolbarClose] := by
  decide

/-- C3 (counterexample): `checkState` on the closed initial state with a
link ancestor opens the panel — `inputOpened` flips from `false` to `true`,
so `checkState` does change the open/closed panel state. -/
theorem checkState_opens_panel_cex :
    initState.inputOpened = false ∧
    (LinkTool.checkState initState (some (some "/x"))).1.inputOpened = true := by
  decide

/-- C3 (amended): `checkState` never closes the panel; it opens it (flag and
both shown classes) exactly when the selection has a link ancestor, and with
no link ancestor it leaves the panel state unchanged. -/
theorem checkState_panel_state (st : ToolState) (anchor : Option (Option String)) :
    (LinkTool.checkState st anchor).1.inputOpened = (st.inputOpened || anchor.isSome) ∧
    (LinkTool.checkState st anchor).1.divShowed = (st.divShowed || anchor.isSome) ∧
    (LinkTool.checkState st anchor).1.inputShowed = (st.inputShowed || anchor.isSome) := by
  cases anchor <;> cases hl : st.liveSelection <;>
    simp [LinkTool.checkState, LinkTool.openActions, LinkTool.renderList,
          LinkTool.saveGuard, hl]

/-- C4 (confirmed): with a link ancestor, `checkState` fills the URL input
with the href (empty when the attribute is absent or is the `"null"`
sentinel) and marks as active exactly the page entries whose url equals the
href; for an absent href, the sentinel, or an unknown href no entry is
marked, and the flag list is freshly recomputed, clearing every prior
highlight. -/
theorem checkState_href_fill_and_highlight :
    (∀ (pages : List PageEntry) (href : Option String) (i : Nat),
       (checkStateHighlight pages href)[i]? = some true ↔
         (href ≠ some "null" ∧ ∃ p, pages[i]? = some p ∧ href = some p.url)) ∧
    (∀ h : String, h ≠ "null" → checkStateInputValue (some h) = h) ∧
    checkStateInputValue none = "" ∧
    checkStateInputValue (some "null") = "" ∧
    (∀ (st : ToolState) (href : Option String),
       (LinkTool.checkState st (some href)).1.inputValue = checkStateInputValue href ∧
       (LinkTool.checkState st (some href)).1.highlightFlags =
         checkStateHighlight st.pageLinks href) := by
  refine ⟨?_, ?_, by decide, by decide, ?_⟩
  · intro pages href i
    by_cases hn : href = some "null"
    · subst hn
      simp only [checkStateHighlight, bne_self_eq_false, Bool.false_eq_true,
        if_false, List.map_const]
      rcases Nat.lt_or_ge i pages.length with hi | hi
      · simp [List.getElem?_replicate, hi]
      · simp [List.getElem?_replicate, Nat.not_lt.mpr hi]
    · have hb : (href != some "null") = true := by simp [bne_iff_ne, hn]
      simp [checkStateHighlight, hb, Option.map_eq_some', hn]
  · intro h hh
    have hb : (some h != some "null") = true := by simp [bne_iff_ne, hh]
    simp [checkStateInputValue, hb]
  · intro st href
    cases hl : st.liveSelection <;>
      simp [LinkTool.checkState, LinkTool.openActions, LinkTool.renderList,
            LinkTool.saveGuard, hl]

/-- C4 (witness): with pages Home and About and href `/about`, entry 1 is
marked active and the input is filled with `/about`. -/
theorem checkState_href_fill_and_highlight_witness :
    (checkStateHighlight [⟨"Home", "/"⟩, ⟨"About", "/about"⟩] (some "/about"))[1]?
      = some true ∧
    checkStateInputValue (some "/about") = "/about" :=
  ⟨(checkState_href_fill_and_highlight.1 _ _ 1).mpr
     ⟨by decide, ⟨⟨"About", "/about"⟩, by decide, rfl⟩⟩,
   checkState_href_fill_and_highlight.2.1 "/about" (by decide)⟩

/-- C5 (counterexample): the claim resolves `"// a"` by its rule four
(`//` followed by any non-slash character) and returns it unchanged, but the
source regex also excludes whitespace after the two slashes, so `prepareLink`
prefixes `http://` instead. -/
theorem prepareLink_protorel_whitespace_cex :
    claimNormalize "// a" = "// a" ∧
    prepareLink "// a" = "http://// a" ∧
    prepareLink "// a" ≠ claimNormalize "// a" := by
  decide

/-- C5 (amended): `prepareLink` trims and then applies the five rules in
precedence order with rule four reading "`//` followed by a non-slash,
non-whitespace character" — it agrees with that rule table on every string —
and the five concrete examples of the claim all hold. -/
theorem prepareLink_precedence_rules :
    (∀ s : String, prepareLink s = specNormalize s) ∧
    prepareLink "vc.ru" = "http://vc.ru" ∧
    prepareLink "/general" = "/general" ∧
    prepareLink "#results" = "#results" ∧
    prepareLink "//google.com" = "//google.com" ∧
    prepareLink "  example.com  " = "http://example.com" := by
  refine ⟨fun s => ?_, by decide, by decide, by decide, by decide, by decide⟩
  show String.mk (addProtocolChars (trimChars s.toList)) = specNormalize s
  rw [addProtocolChars_eq_rules]
  unfold specNormalize
  simp only [apply_ite String.mk]

/-- C6 (counterexample): the filter lower-cases the entry name but not the
query, so the query `"HO"` (upper case) matches nothing instead of returning
the Home entry as the claim asserts for any letter case. -/
theorem filterPages_uppercase_query_cex :
    filterPages [⟨"Home", "/"⟩, ⟨"About", "/about"⟩] "HO" = [] ∧
    filterPages [⟨"Home", "/"⟩, ⟨"About", "/about"⟩] "HO" ≠ [⟨"Home", "/"⟩] := by
  decide

/-- C6 (amended): `filterPages` keeps, in their original order, exactly the
entries whose lower-cased name holds the trimmed query as a substring (the
query itself is not lower-cased, so the match is case-insensitive only for
lower-case queries); an empty or whitespace-only query returns the full list
unmodified, and the lower-case query `"ho"` returns only Home. -/
theorem filterPages_spec :
    (∀ (entries : List PageEntry) (q : String),
       trimChars q.toList = [] → filterPages entries q = entries) ∧
    (∀ (entries : List PageEntry) (q : String),
       List.Sublist (filterPages entries q) entries) ∧
    (∀ (entries : List PageEntry) (q : String) (e : PageEntry),
       e ∈ filterPages entries q ↔
         e ∈ entries ∧ (trimChars q.toList = [] ∨
           occursIn (trimChars q.toList) (lowerChars e.name.toList) = true)) ∧
    filterPages [⟨"Home", "/"⟩, ⟨"About", "/about"⟩] "ho" = [⟨"Home", "/"⟩] ∧
    (∀ entries : List PageEntry, filterPages entries "" = entries) ∧
    (∀ entries : List PageEntry, filterPages entries "  " = entries) := by
  have hempty : ∀ (entries : List PageEntry) (q : String),
      trimChars q.toList = [] → filterPages entries q = entries := by
    intro entries q h
    simp only [toList_eq_data] at h
    simp [filterPages, h]
  refine ⟨hempty, ?_, ?_, by decide,
    fun entries => hempty entries "" (by decide),
    fun entries => hempty entries "  " (by decide)⟩
  · intro entries q
    unfold filterPages
    split
    · exact List.filter_sublist entries
    · exact List.Sublist.refl entries
  · intro entries q e
    by_cases h : trimChars q.toList = []
    · simp only [toList_eq_data] at h
      simp [filterPages, h]
    · simp only [toList_eq_data] at h
      simp [filterPages, h, List.mem_filter]

/-- C6 (witness): a whitespace-only query returns the single-entry list
unchanged, and the membership characterization holds at the Home entry for
query `"ho"`. -/
theorem filterPages_spec_witness :
    filterPages [(⟨"Home", "/"⟩ : PageEntry)] "   " = [⟨"Home", "/"⟩] ∧
    ((⟨"Home", "/"⟩ : PageEntry) ∈
      filterPages [⟨"Home", "/"⟩, ⟨"About", "/about"⟩] "ho") :=
  ⟨filterPages_spec.1 _ "   " (by decide),
   (filterPages_spec.2.2.1 [⟨"Home", "/"⟩, ⟨"About", "/about"⟩] "ho"
      ⟨"Home", "/"⟩).mpr ⟨by simp, Or.inr (by decide)⟩⟩

theorem closeActions_preserves (st : ToolState) (b : Bool) :
    (LinkTool.closeActions st b).pageLinks = st.pageLinks ∧
    (LinkTool.closeActions st b).savedSelection =
      (if b then none else st.savedSelection) ∧
    (LinkTool.closeActions st b).inputOpened = false := by
  cases hb : b <;> cases hf : st.fakeBackground <;>
    cases hs : st.savedSelection <;> cases hl : st.liveSelection <;>
    simp [LinkTool.closeActions, LinkTool.restoreGuard, LinkTool.removeFakeBgGuard,
          LinkTool.clearSavedGuard, hf, hs, hl]

/-- C7 (counterexample): the page list is read inside `renderActions` only.
After the panel markup is built while the external store holds just the Home
entry, the store gains a Contact entry; the next icon toggle makes the
Closed-to-Open transition, yet the stored page list is still the stale
one-entry read, not a fresh read of the two-entry store. -/
theorem pageLinks_stale_on_open_cex :
    (LinkTool.renderActions [⟨"Home", "/"⟩] initState).inputOpened = false ∧
    (LinkTool.toggleActions (LinkTool.renderActions [⟨"Home", "/"⟩] initState)).inputOpened
      = true ∧
    (LinkTool.toggleActions (LinkTool.renderActions [⟨"Home", "/"⟩] initState)).pageLinks
      ≠ [⟨"Home", "/"⟩, ⟨"Contact", "/contact"⟩] ∧
    (LinkTool.toggleActions (LinkTool.renderActions [⟨"Home", "/"⟩] initState)).pageLinks
      = [⟨"Home", "/"⟩] := by
  decide

/-- C7 (amended): the external page list is read exactly when `renderActions`
rebuilds the panel; the operations that perform or accompany a
Closed-to-Open transition (`openActions`, `toggleActions`, `checkState`)
reuse the list captured at the last `renderActions`, so not every
Closed-to-Open transition reflects a fresh read. -/
theorem pageLinks_read_at_renderActions :
    (∀ (storeList : List PageEntry) (st : ToolState),
       (LinkTool.renderActions storeList st).pageLinks = storeList) ∧
    (∀ (st : ToolState) (needFocus : Bool),
       (LinkTool.openActions needFocus st).pageLinks = st.pageLinks) ∧
    (∀ st : ToolState, (LinkTool.toggleActions st).pageLinks = st.pageLinks) ∧
    (∀ (st : ToolState) (anchor : Option (Option String)),
       (LinkTool.checkState st anchor).1.pageLinks = st.pageLinks) := by
  refine ⟨?_, ?_, ?_, ?_⟩
  · intro storeList st
    simp [LinkTool.renderActions, LinkTool.renderList]
  · intro st needFocus
    simp [LinkTool.openActions]
  · intro st
    unfold LinkTool.toggleActions
    split
    · simp [LinkTool.openActions]
    · exact (closeActions_preserves st false).1
  · intro st anchor
    cases anchor <;> cases hl : st.liveSelection <;>
      simp [LinkTool.checkState, LinkTool.openActions, LinkTool.renderList,
            LinkTool.saveGuard, hl]

/-- C8 (confirmed): `closeActions` clears the stored snapshot exactly when
its `clearSavedSelection` argument holds; the external `clear` close passes
`true` and always discards the snapshot, while a toggle-close of the open
panel through the icon passes `false` and leaves the snapshot in place. -/
theorem snapshot_cleared_iff_not_toggle :
    (∀ (st : ToolState) (b : Bool),
       (LinkTool.closeActions st b).savedSelection =
         (if b then none else st.savedSelection)) ∧
    (∀ st : ToolState, (LinkTool.clear st).savedSelection = none) ∧
    (∀ st : ToolState, st.inputOpened = true →
       (LinkTool.toggleActions st).savedSelection = st.savedSelection ∧
       (LinkTool.toggleActions st).inputOpened = false) := by
  refine ⟨fun st b => (closeActions_preserves st b).2.1, ?_, ?_⟩
  · intro st
    have h := (closeActions_preserves st true).2.1
    simpa [LinkTool.clear] using h
  · intro st h
    have h1 := (closeActions_preserves st false).2.1
    have h2 := (closeActions_preserves st false).2.2
    simp only [LinkTool.toggleActions, h, Bool.not_true]
    constructor
    · simpa using h1
    · simpa using h2

/-- C8 (witness): on the sample open state, the external close clears the
snapshot while the icon toggle-close keeps it. -/
theorem snapshot_cleared_iff_not_toggle_witness :
    (LinkTool.clear sampleState).savedSelection = none ∧
    (LinkTool.toggleActions sampleState).savedSelection = sampleState.savedSelection :=
  ⟨snapshot_cleared_iff_not_toggle.2.1 sampleState,
   (snapshot_cleared_iff_not_toggle.2.2 sampleState rfl).1⟩

/-- C9 (counterexample): `"http://x "` begins with an explicit scheme prefix
but carries trailing whitespace, and `prepareLink` trims it, so the string
is not returned unchanged. -/
theorem prepareLink_scheme_trailing_ws_cex :
    startsWithScheme ("http://x " : String).toList = true ∧
    prepareLink "http://x " = "http://x" ∧
    prepareLink "http://x " ≠ "http://x " := by
  decide

/-- C9 (amended): every string that equals its own trim and begins with an
explicit scheme prefix is returned unchanged by `prepareLink`, and
`prepareLink` is idempotent on all strings. -/
theorem prepareLink_scheme_unchanged_and_idem :
    (∀ s : String, trimChars s.toList = s.toList →
       startsWithScheme s.toList = true → prepareLink s = s) ∧
    (∀ s : String, prepareLink (prepareLink s) = prepareLink s) := by
  constructor
  · intro s h1 h2
    have h2d : startsWithScheme s.data = true := h2
    show String.mk (addProtocolChars (trimChars s.toList)) = s
    rw [h1, show addProtocolChars s.toList = s.toList by
      simp [addProtocolChars, h2d]]
    exact mk_toList s
  · intro s
    exact congrArg String.mk (addProtocolChars_trim_idem s.toList)

/-- C9 (witness): the trimmed scheme-prefixed string `"http://x"` is
returned unchanged. -/
theorem prepareLink_scheme_unchanged_and_idem_witness :
    trimChars ("http://x" : String).toList = ("http://x" : String).toList ∧
    startsWithScheme ("http://x" : String).toList = true ∧
    prepareLink "http://x" = "http://x" :=
  ⟨by decide, by decide,
   prepareLink_scheme_unchanged_and_idem.1 "http://x" (by decide) (by decide)⟩

/-- C10 (confirmed): `validateURL` accepts the empty string and rejects
exactly the strings holding a whitespace character; consequently a submit
whose effective value is empty never triggers the invalid-link notification,
while a submit whose effective value is whitespace-only and nonempty does
trigger it. -/
theorem validateURL_empty_and_notification :
    validateURL "" = true ∧
    (∀ s : String, validateURL s = false ↔ s.toList.any Char.isWhitespace = true) ∧
    (∀ (st : ToolState) (anchor : Bool), st.inputValue = "" →
       Effect.notifierShow "Pasted link is not valid." "error" ∉
         (LinkTool.enterPressed st false "" anchor).2) ∧
    (∀ (st : ToolState) (isExisting : Bool) (data : String) (anchor : Bool),
       (if isExisting then data else st.inputValue).toList ≠ [] →
       (if isExisting then data else st.inputValue).toList.all Char.isWhitespace = true →
       Effect.notifierShow "Pasted link is not valid." "error" ∈
         (LinkTool.enterPressed st isExisting data anchor).2) := by
  refine ⟨by decide, ?_, ?_, ?_⟩
  · intro s
    simp [validateURL]
  · intro st anchor h
    unfold LinkTool.enterPressed
    rw [show (if false then "" else st.inputValue) = st.inputValue from rfl, h]
    have e1 : validateURL "" = true := by decide
    cases anchor <;>
      simp [e1, show trimChars ("" : String).toList = [] from rfl, prepareLink,
            addProtocol, trimChars, addProtocolChars, startsWithScheme,
            isInternalPath, isAnchorStart, isProtocolRelative]
  · intro st isExisting data anchor hne hall
    have htrim : trimChars (if isExisting then data else st.inputValue).toList = [] := by
      unfold trimChars
      rw [List.dropWhile_eq_nil_iff.mpr ?_]
      · simp
      · intro x hx
        exact List.all_eq_true.mp hall x (by simpa using hx)
    have hv : validateURL (if isExisting then data else st.inputValue) = false := by
      unfold validateURL
      rcases hl : (if isExisting then data else st.inputValue).toList with _ | ⟨c, cs⟩
      · rw [hl] at hne
        simp at hne
      · rw [hl] at hall
        simp only [List.all_cons, Bool.and_eq_true] at hall
        simp [hl, List.any_cons, hall.1]
    simp only [toList_eq_data] at htrim
    unfold LinkTool.enterPressed
    simp [htrim, hv]

/-- C10 (witness): the empty submit on the sample state never notifies,
while a single-space submit does. -/
theorem validateURL_empty_and_notification_witness :
    Effect.notifierShow "Pasted link is not valid." "error" ∉
      (LinkTool.enterPressed sampleState false "" false).2 ∧
    Effect.notifierShow "Pasted link is not valid." "error" ∈
      (LinkTool.enterPressed { sampleState with inputValue := " " } false "" false).2 :=
  ⟨validateURL_empty_and_notification.2.2.1 sampleState false rfl,
   validateURL_empty_and_notification.2.2.2 _ false "" false (by decide) (by decide)⟩
